import Mathlib

/-!
Verification of the client-side print-job orchestration layer of the
Online-Printer repository: a shallow embedding in Lean 4 of the
`AuthManager`, `ConnectionMonitor`, `StationStorage`, `AutoPrintManager`
(print execution engine), PWA-detection utility and the station teardown
handler, together with theorems settling the specified properties.

Each definition is annotated with the source file and line range it
translates.  JavaScript `Map`s are modelled as association lists,
`localStorage` as record fields, network calls as oracle parameters
(functions giving each call its outcome), and the single-threaded event
loop of the browser as an explicit timer-driven step machine (section
`Loop` below).
-/

namespace OPrinter

/-- Association-list lookup, modelling JavaScript `Map.get` over
`this.failedJobs : Map<jobId, retryCount>`. -/
def mapGet (m : List (Nat × Nat)) (k : Nat) : Option Nat :=
  match m with
  | [] => none
  | (k', v) :: rest => if k' = k then some v else mapGet rest k

/-- Association-list update, modelling JavaScript `Map.set`. -/
def mapSet (m : List (Nat × Nat)) (k v : Nat) : List (Nat × Nat) :=
  match m with
  | [] => [(k, v)]
  | (k', v') :: rest => if k' = k then (k, v) :: rest else (k', v') :: mapSet rest k v

/-- Association-list removal, modelling JavaScript `Map.delete`. -/
def mapDelete (m : List (Nat × Nat)) (k : Nat) : List (Nat × Nat) :=
  match m with
  | [] => []
  | (k', v') :: rest => if k' = k then rest else (k', v') :: mapDelete rest k

/-- JavaScript `array.slice(-n)`: keep the last `n` elements
(used for the failed-job log bound of 50 and the checked-file bound). -/
def keepLast (n : Nat) (l : List α) : List α :=
  l.drop (l.length - n)

end OPrinter

/-! ## ConnectionMonitor (src/frontend/src/services/ConnectionMonitor.js) -/

namespace Conn

/-- An operation queue entry.  In the source an entry is a closure whose
replay performs a network call; here an entry is an abstract id and the
replay outcome is given by an oracle `ok : Op → Bool`. -/
abbrev Op := Nat

/-- `ConnectionMonitor.queueOperation` (ConnectionMonitor.js lines 172-178):
`this.operationQueue.push(operation)` followed by `saveQueue()`.
No size check of any kind is performed before or after the push. -/
def queueOperation (queue : List Op) (operation : Op) : List Op :=
  queue ++ [operation]

/-- The drain loop body of `ConnectionMonitor.processQueue`
(ConnectionMonitor.js lines 186-198):
`while (queue.length > 0 && isConnectedToBackend) { op = shift();
try { await op() } catch { unshift(op); break } }`.
`connected` is `this.isConnectedToBackend` (constant across an
uninterleaved drain), `ok op` is whether `await op()` succeeds.
Returns (operations replayed successfully, in order; final queue). -/
def processQueueGo (connected : Bool) (ok : Op → Bool) :
    List Op → List Op × List Op
  | [] => ([], [])
  | op :: rest =>
    if ¬ connected then ([], op :: rest)
    else if ok op then
      let r := processQueueGo connected ok rest
      (op :: r.1, r.2)
    else ([], op :: rest)

/-- `ConnectionMonitor.processQueue` (ConnectionMonitor.js lines 180-202),
including the re-entrancy guard
`if (this.isProcessingQueue || this.operationQueue.length === 0) return;`. -/
def processQueue (isProcessingQueue connected : Bool) (ok : Op → Bool)
    (queue : List Op) : List Op × List Op :=
  if isProcessingQueue ∨ queue.length = 0 then ([], queue)
  else processQueueGo connected ok queue

end Conn

/-! ## StationStorage (src/frontend/src/services/StationStorage.js) -/

namespace Storage

/-- A queued operation as persisted by `StationStorage.addToQueue`
(payload abstracted to an id; the source also stamps an id/timestamp). -/
abbrev Entry := Nat

/-- `this.maxQueueSize = 100` (StationStorage.js line 6). -/
def maxQueueSize : Nat := 100

/-- `StationStorage.addToQueue` (StationStorage.js lines 103-124):
if `queue.length >= this.maxQueueSize` then `queue.shift()` (drop the
oldest entry), then `queue.push({...operation})`. -/
def addToQueue (queue : List Entry) (operation : Entry) : List Entry :=
  let queue' := if queue.length ≥ maxQueueSize then queue.drop 1 else queue
  queue' ++ [operation]

/-- A Failed-Job Record as persisted by `StationStorage.saveFailedJob`:
{jobId, error, retryCount} (timestamp omitted). -/
structure FailedRec where
  jobId : Nat
  error : String
  retryCount : Nat
deriving DecidableEq, Repr

/-- `StationStorage.saveFailedJob` (StationStorage.js lines 159-177):
push {jobId, error, retryCount}, then keep only the last 50 records
(`failed.slice(-50)`). -/
def saveFailedJob (failed : List FailedRec) (jobId : Nat) (error : String)
    (retryCount : Nat) : List FailedRec :=
  OPrinter.keepLast 50
    (failed ++ [{ jobId := jobId, error := error, retryCount := retryCount }])

end Storage

/-! ## PWA detection (src/frontend/src/utils/pwaDetection.js) -/

namespace PWA

/-- The browser display environment read by `isPWA`: the three
`matchMedia('display-mode: ...')` queries, iOS `navigator.standalone`,
the `android-app://` referrer check and the two URL-parameter checks. -/
structure DisplayEnv where
  standalone : Bool
  fullscreen : Bool
  minimalUI : Bool
  iosStandalone : Bool
  androidReferrer : Bool
  urlModePwa : Bool
  urlSourcePwa : Bool
deriving DecidableEq, Repr

/-- `isPWA` (pwaDetection.js lines 2-33): true iff any of the five
checks passes, in source order. -/
def isPWA (e : DisplayEnv) : Bool :=
  if e.standalone then true
  else if e.fullscreen || e.minimalUI then true
  else if e.iosStandalone then true
  else if e.androidReferrer then true
  else if e.urlModePwa || e.urlSourcePwa then true
  else false

/-- An ordinary browser tab: every installed-app signal is absent. -/
def browserTab : DisplayEnv :=
  { standalone := false, fullscreen := false, minimalUI := false,
    iosStandalone := false, androidReferrer := false,
    urlModePwa := false, urlSourcePwa := false }

end PWA

/-! ## AutoPrintManager.start (src/unnamed/part_011 = AutoPrintManager.js) -/

namespace APM

/-- The fragment of `AutoPrintManager` state that `start` touches:
`this.isRunning` and `this.checkInterval` (modelled as whether a
polling interval is armed). -/
structure StartState where
  isRunning : Bool
  hasCheckInterval : Bool
deriving DecidableEq, Repr

/-- `AutoPrintManager.start` (part_011 lines 126-145):
`if (this.isRunning) return;` then `if (!isPWA()) return;` (the
display-mode re-check inside start itself), then `isRunning = true`,
`checkInterval = setInterval(checkForNewFiles, 10000)` and an
initial check. -/
def start (env : PWA.DisplayEnv) (st : StartState) : StartState :=
  if st.isRunning then st
  else if ¬ PWA.isPWA env then st
  else { isRunning := true, hasCheckInterval := true }

end APM

/-! ## AuthManager: JWT parsing and refresh scheduling
(src/unnamed/part_010 = AuthManager.js) -/

namespace Auth

/-- A decoded JWT payload: only the `exp` claim matters to
`scheduleTokenRefresh`; a payload parsed from JSON may lack it. -/
structure Payload where
  exp : Option Int
deriving DecidableEq, Repr

/-- `token.split('.')` for separator character `.`
(the JavaScript `String.prototype.split` used at part_010 line 90). -/
def splitDot : List Char → List (List Char)
  | [] => [[]]
  | c :: rest =>
    let r := splitDot rest
    if c = '.' then [] :: r
    else match r with
      | [] => [[c]]
      | seg :: segs => (c :: seg) :: segs

/-- `AuthManager.parseJWT` (part_010 lines 88-103): take segment 1 of
`token.split('.')`; when the token has no second segment the chained
calls throw and the surrounding catch returns `null` (here `none`).
`decode` models the `atob` / `decodeURIComponent` / `JSON.parse`
pipeline on the payload segment, returning `none` when any of them
throws (again absorbed by the catch). -/
def parseJWT (decode : List Char → Option Payload) (token : List Char) :
    Option Payload :=
  match (splitDot token).get? 1 with
  | none => none
  | some seg => decode seg

/-- What `scheduleTokenRefresh` arms after clearing any prior timer. -/
inductive RefreshAction where
  /-- `setTimeout(() => this.refreshToken(), refreshIn)` with the delay
  in milliseconds. -/
  | timer (delayMs : Int)
  /-- the `else` branch: token already (about to be) expired, refresh
  immediately. -/
  | immediate
deriving DecidableEq, Repr

/-- JavaScript truthiness of `tokenData.exp` (an absent field is
`undefined`, and `0` is falsy). -/
def expTruthy : Option Int → Bool
  | none => false
  | some e => e ≠ 0

/-- `AuthManager.scheduleTokenRefresh` (part_010 lines 57-86).
`nowSec` is `Date.now() / 1000`.  Returns the action armed, or `none`
when nothing is scheduled.  The whole body is wrapped in try/catch, and
`parseJWT` returns `null` rather than throwing, so the function always
returns normally: the model is a total function with no error case. -/
def scheduleTokenRefresh (decode : List Char → Option Payload)
    (token : List Char) (nowSec : Int) : Option RefreshAction :=
  match parseJWT decode token with
  | none => none
  | some tokenData =>
    if expTruthy tokenData.exp then
      match tokenData.exp with
      | none => none
      | some exp =>
        let expiresIn := exp - nowSec
        let refreshIn := max 0 ((expiresIn - 300) * 1000)
        if refreshIn > 0 then some (.timer refreshIn)
        else some .immediate
    else none

end Auth

/-! ## AuthManager: re-authentication, token renewal, authenticated requests
(src/unnamed/part_010 = AuthManager.js) -/

namespace Auth

/-- `this.maxRetries = 5` (part_010 line 11). -/
def maxRetries : Nat := 5

/-- `this.baseRetryDelay = 1000` (part_010 line 12). -/
def baseRetryDelay : Nat := 1000

/-- Observable outcome of one `reAuthenticate` run. -/
structure ReAuthRun where
  /-- the value returned (`ok token`) or the error thrown. -/
  result : Except Unit Nat
  /-- number of `POST /login` requests issued. -/
  loginCalls : Nat
  /-- backoff delays armed via `setTimeout`, in order, in milliseconds. -/
  delays : List Nat
  /-- final value of `this.retryAttempts`. -/
  retryAttempts : Nat
deriving Repr

/-- `AuthManager.reAuthenticate` (part_010 lines 159-216).
`loginResult n` is the outcome of the `n`-th `POST /login` call
(`some token` when `response.ok`, `none` for a non-ok response or a
network error — both flow into the same catch block).  `hasCreds` is
`this.stationCredentials !== null`; `retryAttempts` is the instance
field read and written by the catch block.  On failure the catch
schedules `setTimeout(reAuthenticate, baseRetryDelay * 2 ^ retryAttempts)`
and increments `retryAttempts` while `retryAttempts < maxRetries`;
otherwise it rethrows. -/
def reAuthenticate (loginResult : Nat → Option Nat) (hasCreds : Bool)
    (callIdx retryAttempts : Nat) : ReAuthRun :=
  if ¬ hasCreds then
    { result := .error (), loginCalls := 0, delays := [], retryAttempts := retryAttempts }
  else
    match loginResult callIdx with
    | some tok =>
      { result := .ok tok, loginCalls := 1, delays := [], retryAttempts := 0 }
    | none =>
      if h : retryAttempts < maxRetries then
        let delay := baseRetryDelay * 2 ^ retryAttempts
        let rest := reAuthenticate loginResult hasCreds (callIdx + 1) (retryAttempts + 1)
        { result := rest.result, loginCalls := 1 + rest.loginCalls,
          delays := delay :: rest.delays, retryAttempts := rest.retryAttempts }
      else
        { result := .error (), loginCalls := 1, delays := [], retryAttempts := retryAttempts }
termination_by maxRetries + 1 - retryAttempts
decreasing_by simp [maxRetries] at h ⊢; omega

/-- Outcome of one `fetch` issued by `makeAuthenticatedRequest`:
a response with an HTTP status (plus an abstract body tag), or a
network error. -/
inductive FetchOutcome where
  | resp (status : Nat) (tag : Nat)
  | netErr (e : Nat)
deriving DecidableEq, Repr

/-- Observable outcome of one `makeAuthenticatedRequest` run. -/
structure ReqRun where
  /-- the response returned (status, body tag) or the error thrown. -/
  result : Except Nat (Nat × Nat)
  /-- number of `makeRequest` fetches issued. -/
  requests : Nat
deriving Repr

/-- `AuthManager.makeAuthenticatedRequest` (part_010 lines 218-244).
`first` is the outcome of `makeRequest(this.token)`; on a 401 the code
awaits `refreshToken()` (outcome `refreshOutcome`: new token or thrown
error) and retries exactly once with `makeRequest(newToken)` (outcome
`second newToken`); every other response is returned as-is and a thrown
error is rethrown by the catch block. -/
def makeAuthenticatedRequest (first : FetchOutcome)
    (refreshOutcome : Except Nat Nat) (second : Nat → FetchOutcome) : ReqRun :=
  match first with
  | .netErr e => { result := .error e, requests := 1 }
  | .resp status tag =>
    if status = 401 then
      match refreshOutcome with
      | .error e => { result := .error e, requests := 1 }
      | .ok newToken =>
        match second newToken with
        | .netErr e => { result := .error e, requests := 2 }
        | .resp s2 t2 => { result := .ok (s2, t2), requests := 2 }
    else { result := .ok (status, tag), requests := 1 }

/-- The `AuthManager` state touched by `refreshToken`:
`this.isRefreshing`, `this.refreshSubscribers` (caller ids awaiting the
in-flight renewal), `this.token`, plus instrumentation: the
subscriber resolutions actually delivered and the number of
`POST /refresh-token` fetches issued. -/
structure RState where
  isRefreshing : Bool
  subscribers : List Nat
  token : Nat
  resolved : List (Nat × Nat)
  refreshCalls : Nat
deriving DecidableEq, Repr

/-- Outcome of the `POST /refresh-token` fetch inside `refreshToken`. -/
inductive RefreshFetch where
  /-- `response.ok` with a new token in the body. -/
  | ok (newToken : Nat)
  /-- `response.status === 401`. -/
  | unauthorized
  /-- any other non-ok status (the code falls through both branches and
  returns `undefined`). -/
  | otherStatus (status : Nat)
  /-- the fetch threw (network error). -/
  | netFail
deriving DecidableEq, Repr

/-- Entry of `AuthManager.refreshToken` (part_010 lines 105-113): a call
arriving while `isRefreshing` is set pushes its resolver onto
`refreshSubscribers` and issues no fetch; otherwise it sets
`isRefreshing` and issues the `POST /refresh-token` fetch.  Returns the
new state and whether the caller was subscribed. -/
def refreshEnter (st : RState) (caller : Nat) : RState × Bool :=
  if st.isRefreshing then
    ({ st with subscribers := st.subscribers ++ [caller] }, true)
  else
    ({ st with isRefreshing := true, refreshCalls := st.refreshCalls + 1 }, false)

/-- Completion of the in-flight `refreshToken` (part_010 lines 124-156)
once its fetch outcome is known.  On `response.ok` the new token is
stored, every subscriber is resolved with it and the list is cleared.
On a 401 or a thrown error with stored credentials the code returns
`await this.reAuthenticate()` (outcome `reauth`; on success
`reAuthenticate` stores the token) — the subscriber list is left
untouched on this path.  The `finally` clears `isRefreshing` on every
path.  Result `ok none` models the `undefined` return of the
fall-through branch. -/
def refreshComplete (st : RState) (fetch : RefreshFetch) (hasCreds : Bool)
    (reauth : Except Unit Nat) : RState × Except Unit (Option Nat) :=
  match fetch with
  | .ok t =>
    ({ st with token := t,
               resolved := st.resolved ++ st.subscribers.map (fun c => (c, t)),
               subscribers := [],
               isRefreshing := false }, .ok (some t))
  | .unauthorized =>
    if hasCreds then
      match reauth with
      | .ok t => ({ st with token := t, isRefreshing := false }, .ok (some t))
      | .error e => ({ st with isRefreshing := false }, .error e)
    else ({ st with isRefreshing := false }, .error ())
  | .otherStatus _ => ({ st with isRefreshing := false }, .ok none)
  | .netFail =>
    if hasCreds then
      match reauth with
      | .ok t => ({ st with token := t, isRefreshing := false }, .ok (some t))
      | .error e => ({ st with isRefreshing := false }, .error e)
    else ({ st with isRefreshing := false }, .error ())

/-- An idle `AuthManager`: no renewal in flight, no subscribers,
current token 10, no resolutions delivered, no fetches issued yet. -/
def idleState : RState :=
  { isRefreshing := false, subscribers := [], token := 10,
    resolved := [], refreshCalls := 0 }

/-- Scenario: caller 0 starts a renewal, then caller 1 calls
`refreshToken` while it is in flight and is queued as a subscriber. -/
def busyTwoCallers : RState :=
  (refreshEnter (refreshEnter idleState 0).1 1).1

/-- Scenario continued: the in-flight renewal's fetch comes back 401 and
the fallback re-authentication succeeds with token 42. -/
def reauthFallback : RState × Except Unit (Option Nat) :=
  refreshComplete busyTwoCallers .unauthorized true (.ok 42)

end Auth

/-! ## Station teardown (src/frontend/src/components/PrinterStation.jsx) -/

namespace Station

/-- The persisted local-storage keys touched by station teardown. -/
structure Persist where
  /-- `printerStationData` (station id, session token). -/
  printerStationData : Option (Nat × Nat)
  /-- legacy `printerStation`. -/
  printerStation : Option Nat
  /-- legacy `stationSessionToken`. -/
  stationSessionToken : Option Nat
  /-- `stationCredentials`. -/
  stationCredentials : Option (Nat × Nat)
  /-- `printerStationQueue` (the persisted operation queue). -/
  printerStationQueue : List Nat
deriving DecidableEq, Repr

/-- The child components the teardown stops. -/
structure Components where
  heartbeatOn : Bool
  pollingOn : Bool
  /-- the print execution engine (`autoPrintManager`). -/
  apmRunning : Bool
deriving DecidableEq, Repr

/-- `StationStorage.clearStationData` (StationStorage.js lines 53-63). -/
def clearStationData (p : Persist) : Persist :=
  { p with printerStationData := none, printerStation := none,
           stationSessionToken := none }

/-- `StationStorage.clearCredentials` (StationStorage.js lines 92-100). -/
def clearCredentials (p : Persist) : Persist :=
  { p with stationCredentials := none }

/-- `StationStorage.clearQueue` (StationStorage.js lines 148-156):
resets the persisted operation queue to `[]`. -/
def clearQueue (p : Persist) : Persist :=
  { p with printerStationQueue := [] }

/-- `handleUnregister` (PrinterStation.jsx lines 412-438).  `station` is
the current station (early return when `null`); `deleteOk` is the
outcome of the `DELETE /stations/{id}` fetch, whose failure is caught
and only logged.  Then `stopHeartbeat()`, `stopPolling()`,
`stationStorage.clearStationData()`, `stationStorage.clearCredentials()`
and `autoPrintManager.destroy()` run (React display state omitted).
`clearQueue` is never invoked here. -/
def handleUnregister (station : Option Nat) (_deleteOk : Bool)
    (c : Components) (p : Persist) : Components × Persist :=
  match station with
  | none => (c, p)
  | some _ =>
    let c2 : Components := { heartbeatOn := false, pollingOn := false, apmRunning := false }
    let p2 := clearCredentials (clearStationData p)
    (c2, p2)

end Station

/-! ## AutoPrintManager: print-file retry cascade
(src/unnamed/part_011 = AutoPrintManager.js) -/

namespace APM

/-- Server-side print job status (part_011 status strings). -/
inductive JStatus where
  | pending
  | printing
  | completed
  | failed
deriving DecidableEq, Repr

/-- A print job as consumed by `printFile`: `printJob.id` and
`printJob.file_id`. -/
structure Job where
  id : Nat
  fileId : Nat
deriving DecidableEq, Repr

/-- `this.maxRetries = 3` (part_011 line 21). -/
def maxRetries : Nat := 3

/-- `this.retryDelay = 2000` (part_011 line 22). -/
def retryDelay : Nat := 2000

/-- One `updateJobStatus(jobId, status, error)` call (part_011 lines
498-524). -/
structure StatusCall where
  jobId : Nat
  status : JStatus
  error : Option String
deriving DecidableEq, Repr

/-- Observable outcome of a `printFile` run including its scheduled
retries. -/
structure PrintRun where
  /-- `file_id` of each `GET /files/{file_id}/download` issued, in
  order (one per attempt; the same `printJob` payload is passed to every
  retry, never re-fetched from the queue). -/
  downloads : List Nat
  /-- every `updateJobStatus` call issued, in order. -/
  statusUpdates : List StatusCall
  /-- the persisted failed-job log (`stationStorage` `failedJobs`). -/
  saved : List Storage.FailedRec
  /-- `this.failedJobs` (jobId ↦ retryCount). -/
  failedMap : List (Nat × Nat)
  /-- the retry delays armed via `setTimeout`, in order. -/
  delays : List Nat
deriving DecidableEq, Repr

/-- `AutoPrintManager.printFile` (part_011 lines 354-398) together with
the retry chain its catch block schedules.  `downloadOk n` is whether
attempt `n` gets through the download/render/print steps without
throwing; `err` is the thrown error message.  Each activation reads
`jobRetries = this.failedJobs.get(printJob.id) || 0`, marks the job
`printing`, and on a throw either (retries left) stores
`failedJobs.set(id, jobRetries+1)`, persists a Failed-Job Record via
`stationStorage.saveFailedJob`, arms `setTimeout(printFile(printJob),
retryDelay * 2 ^ jobRetries)`, or (retries exhausted) deletes the map
entry and reports status `failed` with the error message.  The `fuel`
argument is only a termination device: the chain re-enters at most
`maxRetries` times, so any fuel ≥ `maxRetries + 2` is never exhausted
from an initial call. -/
def printFileGo (downloadOk : Nat → Bool) (err : String) (job : Job)
    (failedMap : List (Nat × Nat)) (saved : List Storage.FailedRec)
    (attemptIdx : Nat) : Nat → PrintRun
  | 0 => { downloads := [], statusUpdates := [], saved := saved,
           failedMap := failedMap, delays := [] }
  | fuel + 1 =>
    let jobRetries := (OPrinter.mapGet failedMap job.id).getD 0
    if downloadOk attemptIdx then
      { downloads := [job.fileId],
        statusUpdates := [{ jobId := job.id, status := .printing, error := none },
                          { jobId := job.id, status := .completed, error := none }],
        saved := saved, failedMap := failedMap, delays := [] }
    else
      if jobRetries < maxRetries then
        let failedMap2 := OPrinter.mapSet failedMap job.id (jobRetries + 1)
        let saved2 := Storage.saveFailedJob saved job.id err (jobRetries + 1)
        let delay := retryDelay * 2 ^ jobRetries
        let rest := printFileGo downloadOk err job failedMap2 saved2 (attemptIdx + 1) fuel
        { downloads := job.fileId :: rest.downloads,
          statusUpdates := { jobId := job.id, status := .printing, error := none }
            :: rest.statusUpdates,
          saved := rest.saved, failedMap := rest.failedMap,
          delays := delay :: rest.delays }
      else
        { downloads := [job.fileId],
          statusUpdates := [{ jobId := job.id, status := .printing, error := none },
                            { jobId := job.id, status := .failed, error := some err }],
          saved := saved, failedMap := OPrinter.mapDelete failedMap job.id,
          delays := [] }

/-- `printFile` run from an initial call with ample fuel
(5 = `maxRetries` + 2; the chain performs at most 1 + `maxRetries`
activations). -/
def printFile (downloadOk : Nat → Bool) (err : String) (job : Job)
    (failedMap : List (Nat × Nat)) (saved : List Storage.FailedRec) : PrintRun :=
  printFileGo downloadOk err job failedMap saved 0 5

/-- The pending filter of `checkPendingJobs` (part_011 line 184):
`print_jobs.filter(job => job.status === 'pending')`. -/
def pendingOf (jobs : List (Job × JStatus)) : List Job :=
  (jobs.filter (fun js => js.2 = .pending)).map (fun js => js.1)

/-- The retry guard of `processFailedJobs` (part_011 lines 400-410): a
stored Failed-Job Record is re-attempted only when
`failed.retryCount < this.maxRetries`. -/
def wouldRetryFailed (rec : Storage.FailedRec) : Bool :=
  rec.retryCount < maxRetries

end APM

/-! ## The browser event loop driving the print engine
(src/unnamed/part_011 = AutoPrintManager.js)

The print path of `AutoPrintManager` is a set of async functions whose
awaits (network fetches) and `setTimeout`s interleave on the browser's
single-threaded event loop.  The machine below makes that explicit:
each `Task` is one atomic segment (a timer callback, or the code between
two awaits of an async function), and a state step runs the earliest
pending timer (FIFO among equal fire times).  Network awaits complete
after a fixed latency `netMs`; the outcome of each job's
download/render step is given by the oracle `downloadOk` (keyed by job
id).  A "print execution" (the span from marking a job `printing` at the
top of `printFile` through the settle delay or the failure exit) is
instrumented by `activePrints`/`maxActive`. -/

namespace Loop

/-- Modelling latency of one network round trip (await of a fetch), in
ms.  Any positive value below the retry delays produces the same
interleavings up to timing; 250 keeps all fire times distinct in the
scenarios below. -/
def netMs : Nat := 250

/-- One atomic segment of the print path. -/
inductive Task where
  /-- the tail of `checkPendingJobs` after its queue fetch resolved
  (part_011 lines 182-196): schedule `autoPrintNext` for the first
  pending job. -/
  | poll
  /-- `autoPrintNext` entry (part_011 lines 310-327): the `isPrinting`
  guard, `isPrinting = true`, and the `/print-queue/next` fetch. -/
  | autoPrintNext
  /-- `autoPrintNext` after its fetch resolved (part_011 lines 329-351):
  claim the job and call `printFile`, which runs to its first await. -/
  | apnResp
  /-- `printFile` resumed after `await updateJobStatus('printing')`:
  issue the download fetch (part_011 lines 362-365). -/
  | pfAfterStatus (job : APM.Job) (jobRetries : Nat) (cont : Bool)
  /-- `printFile` resumed with the download outcome (part_011 lines
  367-397: success continues to the iframe; a throw enters the catch). -/
  | pfAfterDownload (job : APM.Job) (jobRetries : Nat) (cont : Bool)
  /-- the iframe onload + 500 ms delay elapsed: `print()` invoked, settle
  timer armed (part_011 lines 426-437). -/
  | pfPrintStep (job : APM.Job) (cont : Bool)
  /-- the 1000 ms settle delay elapsed: cleanup, status `completed`,
  promise resolved (part_011 lines 437-457). -/
  | pfSettle (job : APM.Job) (cont : Bool)
  /-- the retry `setTimeout(() => this.printFile(printJob), delay)`
  fired (part_011 line 391): `printFile` re-entered directly, with no
  `isPrinting` check and no awaiting caller. -/
  | pfRetry (job : APM.Job)
deriving DecidableEq, Repr

/-- Event-loop state: the `AutoPrintManager` fields touched by the print
path, the server's job queue, the pending timers, and the in-flight
print instrumentation.  `cont` on a task records whether an
`autoPrintNext` activation awaits that `printFile` activation (its
`finally` clears `isPrinting` when the promise resolves). -/
structure MState where
  now : Nat
  /-- `this.isPrinting`. -/
  isPrinting : Bool
  /-- `this.scheduledJobs`. -/
  scheduledJobs : List Nat
  /-- `this.failedJobs` (jobId ↦ retryCount). -/
  failedRetries : List (Nat × Nat)
  /-- the persisted failed-job log. -/
  storedFailed : List Storage.FailedRec
  /-- the server's job queue, in order, with each job's status
  (status updates are applied when the `PUT` is issued). -/
  server : List (APM.Job × APM.JStatus)
  /-- pending timers (fire time, task), in arming order. -/
  timers : List (Nat × Task)
  /-- ids of print executions currently in flight (instrumentation). -/
  activePrints : List Nat
  /-- the largest number of simultaneously in-flight print executions
  seen so far (instrumentation). -/
  maxActive : Nat
  /-- retry-path `printFile` entries that ran while `isPrinting` was set
  (time, job id) (instrumentation). -/
  retryEntriesWhileFlag : List (Nat × Nat)
deriving DecidableEq, Repr

/-- Apply a `PUT /print-queue/{id}/status` to the server's queue. -/
def setStatus (server : List (APM.Job × APM.JStatus)) (jid : Nat)
    (s : APM.JStatus) : List (APM.Job × APM.JStatus) :=
  server.map (fun js => if js.1.id = jid then (js.1, s) else js)

/-- The first job with status `pending` — both `pendingJobs[0]` of
`checkPendingJobs` and the job returned by `GET /print-queue/next`. -/
def firstPending (server : List (APM.Job × APM.JStatus)) : Option APM.Job :=
  (server.find? (fun js => js.2 = APM.JStatus.pending)).map (fun js => js.1)

/-- `printFile` entry up to its first await (part_011 lines 354-359):
read `jobRetries` from `this.failedJobs`, begin the print execution
(the job is marked `printing`), arm the continuation after the status
await.  `fromRetry` tags entries arriving through the retry
`setTimeout` for the instrumentation. -/
def startPrintFile (st : MState) (job : APM.Job) (cont : Bool)
    (fromRetry : Bool) : MState :=
  let jobRetries := (OPrinter.mapGet st.failedRetries job.id).getD 0
  let active2 := job.id :: st.activePrints
  { st with
    activePrints := active2,
    maxActive := max st.maxActive active2.length,
    retryEntriesWhileFlag :=
      if fromRetry ∧ st.isPrinting then
        st.retryEntriesWhileFlag ++ [(st.now, job.id)]
      else st.retryEntriesWhileFlag,
    server := setStatus st.server job.id .printing,
    timers := st.timers ++ [(st.now + netMs, .pfAfterStatus job jobRetries cont)] }

/-- The `printFile` promise resolves: the print execution ends, and when
an `autoPrintNext` awaits it (`cont`), its `finally` clears
`isPrinting` (part_011 lines 349-351). -/
def resolvePrintFile (st : MState) (job : APM.Job) (cont : Bool) : MState :=
  { st with
    activePrints := st.activePrints.erase job.id,
    isPrinting := if cont then false else st.isPrinting }

/-- Run one task.  `downloadOk` gives each job's download/render
outcome (keyed by job id); `errMsg` is the thrown error's message. -/
def runTask (downloadOk : Nat → Bool) (errMsg : String) (st : MState) :
    Task → MState
  | .poll =>
    match firstPending st.server with
    | none => st
    | some job =>
      if ¬ st.isPrinting ∧ job.id ∉ st.scheduledJobs then
        { st with
          scheduledJobs := st.scheduledJobs ++ [job.id],
          timers := st.timers ++ [(st.now + 1000, .autoPrintNext)] }
      else st
  | .autoPrintNext =>
    if st.isPrinting then st
    else
      { st with
        isPrinting := true,
        timers := st.timers ++ [(st.now + netMs, .apnResp)] }
  | .apnResp =>
    match firstPending st.server with
    | none =>
      { st with scheduledJobs := [], isPrinting := false }
    | some job =>
      startPrintFile { st with scheduledJobs := st.scheduledJobs.erase job.id }
        job true false
  | .pfAfterStatus job jobRetries cont =>
    { st with
      timers := st.timers ++ [(st.now + netMs, .pfAfterDownload job jobRetries cont)] }
  | .pfAfterDownload job jobRetries cont =>
    if downloadOk job.id then
      { st with timers := st.timers ++ [(st.now + 500, .pfPrintStep job cont)] }
    else
      if jobRetries < APM.maxRetries then
        resolvePrintFile
          { st with
            failedRetries := OPrinter.mapSet st.failedRetries job.id (jobRetries + 1),
            storedFailed := Storage.saveFailedJob st.storedFailed job.id errMsg
              (jobRetries + 1),
            timers := st.timers ++
              [(st.now + APM.retryDelay * 2 ^ jobRetries, .pfRetry job)] }
          job cont
      else
        resolvePrintFile
          { st with
            failedRetries := OPrinter.mapDelete st.failedRetries job.id,
            server := setStatus st.server job.id .failed }
          job cont
  | .pfPrintStep job cont =>
    { st with timers := st.timers ++ [(st.now + 1000, .pfSettle job cont)] }
  | .pfSettle job cont =>
    resolvePrintFile { st with server := setStatus st.server job.id .completed }
      job cont
  | .pfRetry job =>
    startPrintFile st job false true

/-- Remove the earliest timer from a timer list, FIFO among equal fire
times. -/
def popEarliest : List (Nat × Task) → Option ((Nat × Task) × List (Nat × Task))
  | [] => none
  | t :: rest =>
    match popEarliest rest with
    | none => some (t, [])
    | some (m, rem) =>
      if t.1 ≤ m.1 then some (t, rest)
      else some (m, t :: rem)

/-- One event-loop step: advance the clock to the earliest pending timer
and run its task; with no pending timer the state is final. -/
def step (downloadOk : Nat → Bool) (errMsg : String) (st : MState) : MState :=
  match popEarliest st.timers with
  | none => st
  | some ((time, task), rest) =>
    runTask downloadOk errMsg { st with now := time, timers := rest } task

/-- Run the event loop for a number of steps. -/
def run (downloadOk : Nat → Bool) (errMsg : String) : Nat → MState → MState
  | 0, st => st
  | n + 1, st => run downloadOk errMsg n (step downloadOk errMsg st)

/-- Initial configuration for the double-print scenario: job 1 (file 1)
and job 2 (file 2) are pending on the server; poll rounds resolve at
t = 0 and t = 2100; job 1's download always fails and job 2's always
succeeds. -/
def c1Init : MState :=
  { now := 0, isPrinting := false, scheduledJobs := [], failedRetries := [],
    storedFailed := [],
    server := [({ id := 1, fileId := 1 }, .pending),
               ({ id := 2, fileId := 2 }, .pending)],
    timers := [(0, .poll), (2100, .poll)],
    activePrints := [], maxActive := 0, retryEntriesWhileFlag := [] }

/-- The download oracle of the scenario: job 2 succeeds, job 1 fails. -/
def c1DownloadOk : Nat → Bool := fun jid => jid == 2

end Loop

-- ===== Theorems =====

/-- C6: draining the operation queue (with the re-entrancy guard clear and
the backend connected) replays a prefix of the queue in FIFO order,
removes an entry exactly when its replay succeeds, stops at the first
failure leaving the failed entry at the front of the remaining queue, and
never reorders the remainder: the result is precisely
(`takeWhile ok`, `dropWhile ok`) of the original queue. -/
theorem connQueue_fifo_drain (ok : Conn.Op → Bool) (queue : List Conn.Op)
    (hq : queue ≠ []) :
    Conn.processQueue false true ok queue =
      (queue.takeWhile ok, queue.dropWhile ok) ∧
    (queue.takeWhile ok) ++ (queue.dropWhile ok) = queue ∧
    (∀ op ∈ queue.takeWhile ok, ok op = true) ∧
    (∀ op, (queue.dropWhile ok).head? = some op → ok op = false) := by
  have hgo : ∀ q : List Conn.Op,
      Conn.processQueueGo true ok q = (q.takeWhile ok, q.dropWhile ok) := by
    intro q
    induction q with
    | nil => simp [Conn.processQueueGo]
    | cons op rest ih =>
      by_cases h : ok op
      · simp [Conn.processQueueGo, List.takeWhile_cons, List.dropWhile_cons, h, ih]
      · simp [Conn.processQueueGo, List.takeWhile_cons, List.dropWhile_cons, h]
  refine ⟨?_, ?_, ?_, ?_⟩
  · have : ¬ (False ∨ queue.length = 0) := by
      simp [List.length_eq_zero]
      exact hq
    simp [Conn.processQueue, List.length_eq_zero, hq, hgo]
  · exact List.takeWhile_append_dropWhile ok queue
  · intro op hop
    exact List.mem_takeWhile_imp hop
  · have hdrop : ∀ (q : List Conn.Op) op,
        (q.dropWhile ok).head? = some op → ok op = false := by
      intro q
      induction q with
      | nil => intro op hop; simp [List.dropWhile] at hop
      | cons a rest ih =>
        intro op hop
        by_cases h : ok a
        · rw [List.dropWhile_cons_of_pos h] at hop
          exact ih op hop
        · rw [List.dropWhile_cons_of_neg h] at hop
          simp at hop
          rw [← hop]
          simpa using h
    exact hdrop queue

/-- C6 witness: a concrete three-entry queue where the second replay
fails drains exactly the first entry and leaves the failed entry at the
front. -/
theorem connQueue_fifo_drain_witness :
    Conn.processQueue false true (fun op => op = 1) ([1, 2, 3] : List Conn.Op) =
      ([1], [2, 3]) := by
  have h := connQueue_fifo_drain (fun op => op = 1) ([1, 2, 3] : List Conn.Op)
    (by decide)
  rw [h.1]
  decide

/-- C7 counterexample: the ConnectionMonitor's enqueue
(`queueOperation`) performs no eviction at all: pushing onto a queue
already holding `maxQueueSize` (= 100) entries yields 101 entries, so
the operation-queue length does exceed the bound. -/
theorem connQueue_enqueue_exceeds_bound :
    ¬ ((Conn.queueOperation (List.replicate Storage.maxQueueSize 0) 7).length
        ≤ Storage.maxQueueSize) := by
  simp [Conn.queueOperation, Storage.maxQueueSize]

/-- C7 (amended): the persisted operation queue written by
`StationStorage.addToQueue` is capped: from any queue within the bound,
an enqueue at maximum size evicts the oldest entry before appending and
the length never exceeds `maxQueueSize`; below the bound the entry is
simply appended. `ConnectionMonitor.queueOperation`, by contrast,
appends unconditionally (see the counterexample). -/
theorem storage_addToQueue_bounded (queue : List Storage.Entry)
    (operation : Storage.Entry) (h : queue.length ≤ Storage.maxQueueSize) :
    (Storage.addToQueue queue operation).length ≤ Storage.maxQueueSize ∧
    (queue.length = Storage.maxQueueSize →
      Storage.addToQueue queue operation = queue.drop 1 ++ [operation]) ∧
    (queue.length < Storage.maxQueueSize →
      Storage.addToQueue queue operation = queue ++ [operation]) := by
  by_cases hge : queue.length ≥ Storage.maxQueueSize
  · have he : queue.length = 100 := by
      have := le_antisymm h hge
      simpa [Storage.maxQueueSize] using this
    have hq : Storage.addToQueue queue operation = queue.drop 1 ++ [operation] := by
      simp [Storage.addToQueue, hge]
    refine ⟨?_, fun _ => hq, fun hlt => ?_⟩
    · rw [hq]
      simp only [List.length_append, List.length_drop, List.length_cons,
        List.length_nil, Storage.maxQueueSize]
      omega
    · exfalso
      simp only [Storage.maxQueueSize] at hlt
      omega
  · have hlt : queue.length < 100 := by
      simp only [ge_iff_le, not_le, Storage.maxQueueSize] at hge
      omega
    have hq : Storage.addToQueue queue operation = queue ++ [operation] := by
      simp [Storage.addToQueue, hge]
    refine ⟨?_, fun heq => ?_, fun _ => hq⟩
    · rw [hq]
      simp only [List.length_append, List.length_cons, List.length_nil,
        Storage.maxQueueSize]
      omega
    · exfalso
      simp only [Storage.maxQueueSize] at heq
      omega

/-- C7 witness: a full 100-entry queue stays at 100 entries with the
oldest entry evicted, and a 1-entry queue grows to 2. -/
theorem storage_addToQueue_bounded_witness :
    (Storage.addToQueue (List.replicate 100 0) 7).length ≤ Storage.maxQueueSize ∧
    Storage.addToQueue (List.replicate 100 0) 7 =
      (List.replicate 100 0).drop 1 ++ [7] ∧
    Storage.addToQueue [3] 7 = [3, 7] :=
  ⟨(storage_addToQueue_bounded (List.replicate 100 0) 7 (by decide)).1,
   (storage_addToQueue_bounded (List.replicate 100 0) 7 (by decide)).2.1 (by decide),
   (storage_addToQueue_bounded [3] 7 (by decide)).2.2 (by decide)⟩

/-- C8: `AutoPrintManager.start`, when the engine is not already
running, re-checks the display mode itself: in an ordinary browser tab
(every installed-app signal absent) it returns without starting polling,
and in any recognized installed-app display mode (standalone,
fullscreen, minimal-ui, or iOS standalone) it marks the engine running
and arms the polling interval. -/
theorem apm_start_pwa_gating (st : APM.StartState) (env : PWA.DisplayEnv)
    (hrun : st.isRunning = false) :
    APM.start PWA.browserTab st = st ∧
    ((env.standalone || env.fullscreen || env.minimalUI || env.iosStandalone) = true →
      (APM.start env st).isRunning = true ∧
      (APM.start env st).hasCheckInterval = true) := by
  constructor
  · simp [APM.start, hrun, PWA.isPWA, PWA.browserTab]
  · intro hmode
    have hpwa : PWA.isPWA env = true := by
      by_cases h1 : env.standalone
      · simp [PWA.isPWA, h1]
      · by_cases h2 : env.fullscreen
        · simp [PWA.isPWA, h1, h2]
        · by_cases h3 : env.minimalUI
          · simp [PWA.isPWA, h1, h2, h3]
          · by_cases h4 : env.iosStandalone
            · simp [PWA.isPWA, h1, h2, h3, h4]
            · simp [h1, h2, h3, h4] at hmode
    constructor
    · simp [APM.start, hrun, hpwa]
    · simp [APM.start, hrun, hpwa]

/-- C8 witness: from the idle state, start in a browser tab does not
begin polling, and start in standalone mode does. -/
theorem apm_start_pwa_gating_witness :
    APM.start PWA.browserTab { isRunning := false, hasCheckInterval := false } =
      { isRunning := false, hasCheckInterval := false } ∧
    (APM.start { PWA.browserTab with standalone := true }
        { isRunning := false, hasCheckInterval := false }).isRunning = true ∧
    (APM.start { PWA.browserTab with standalone := true }
        { isRunning := false, hasCheckInterval := false }).hasCheckInterval = true :=
  ⟨(apm_start_pwa_gating { isRunning := false, hasCheckInterval := false }
      { PWA.browserTab with standalone := true } rfl).1,
   (apm_start_pwa_gating { isRunning := false, hasCheckInterval := false }
      { PWA.browserTab with standalone := true } rfl).2 (by decide)⟩

/-- C10: when the token does not parse as a JWT (`parseJWT` returns
`null`) or its decoded payload has no `exp` claim, `scheduleTokenRefresh`
arms nothing at all; being a total function, the model also documents
that the call returns normally (the source wraps the body in try/catch
and `parseJWT` absorbs its own exceptions), so `init` raises no error
and the session simply never attempts proactive renewal. -/
theorem auth_schedule_no_exp_no_timer (decode : List Char → Option Auth.Payload)
    (token : List Char) (nowSec : Int)
    (h : Auth.parseJWT decode token = none ∨
      ∃ p, Auth.parseJWT decode token = some p ∧ p.exp = none) :
    Auth.scheduleTokenRefresh decode token nowSec = none := by
  rcases h with h | ⟨p, hp, hexp⟩
  · simp [Auth.scheduleTokenRefresh, h]
  · simp [Auth.scheduleTokenRefresh, hp, Auth.expTruthy, hexp]

/-- C10 witness: a token with no second dot-segment, and a token whose
decoded payload lacks `exp`, both schedule nothing. -/
theorem auth_schedule_no_exp_no_timer_witness :
    Auth.scheduleTokenRefresh (fun _ => none) ['x'] 0 = none ∧
    Auth.scheduleTokenRefresh (fun _ => some { exp := none }) ['a', '.', 'b'] 0 = none :=
  ⟨auth_schedule_no_exp_no_timer (fun _ => none) ['x'] 0 (Or.inl rfl),
   auth_schedule_no_exp_no_timer (fun _ => some { exp := none }) ['a', '.', 'b'] 0
     (Or.inr ⟨{ exp := none }, rfl, rfl⟩)⟩

/-- C3: with stored credentials present and every `POST /login` call
failing, `reAuthenticate` performs the initial attempt plus exactly 5
backoff retries (6 login calls in all), with delays 1s, 2s, 4s, 8s, 16s
(base 1s, doubling), and then surfaces the failure as a thrown terminal
error — the recursion is bounded by `retryAttempts < maxRetries`, so it
never loops indefinitely. -/
theorem auth_reauth_exactly_five_retries (loginResult : Nat → Option Nat)
    (hfail : ∀ n, loginResult n = none) :
    (Auth.reAuthenticate loginResult true 0 0).result = .error () ∧
    (Auth.reAuthenticate loginResult true 0 0).loginCalls = 6 ∧
    (Auth.reAuthenticate loginResult true 0 0).delays =
      [1000, 2000, 4000, 8000, 16000] ∧
    (Auth.reAuthenticate loginResult true 0 0).retryAttempts = 5 := by
  have h5 : Auth.reAuthenticate loginResult true 5 5 =
      { result := .error (), loginCalls := 1, delays := [], retryAttempts := 5 } := by
    rw [Auth.reAuthenticate]
    simp [hfail, Auth.maxRetries]
  have h4 : Auth.reAuthenticate loginResult true 4 4 =
      { result := .error (), loginCalls := 2, delays := [16000], retryAttempts := 5 } := by
    rw [Auth.reAuthenticate]
    simp [hfail, Auth.maxRetries, Auth.baseRetryDelay, h5]
  have h3 : Auth.reAuthenticate loginResult true 3 3 =
      { result := .error (), loginCalls := 3, delays := [8000, 16000],
        retryAttempts := 5 } := by
    rw [Auth.reAuthenticate]
    simp [hfail, Auth.maxRetries, Auth.baseRetryDelay, h4]
  have h2 : Auth.reAuthenticate loginResult true 2 2 =
      { result := .error (), loginCalls := 4, delays := [4000, 8000, 16000],
        retryAttempts := 5 } := by
    rw [Auth.reAuthenticate]
    simp [hfail, Auth.maxRetries, Auth.baseRetryDelay, h3]
  have h1 : Auth.reAuthenticate loginResult true 1 1 =
      { result := .error (), loginCalls := 5, delays := [2000, 4000, 8000, 16000],
        retryAttempts := 5 } := by
    rw [Auth.reAuthenticate]
    simp [hfail, Auth.maxRetries, Auth.baseRetryDelay, h2]
  have h0 : Auth.reAuthenticate loginResult true 0 0 =
      { result := .error (), loginCalls := 6,
        delays := [1000, 2000, 4000, 8000, 16000], retryAttempts := 5 } := by
    rw [Auth.reAuthenticate]
    simp [hfail, Auth.maxRetries, Auth.baseRetryDelay, h1]
  simp [h0]

/-- C3 witness: the always-failing login oracle. -/
theorem auth_reauth_exactly_five_retries_witness :
    (Auth.reAuthenticate (fun _ => none) true 0 0).loginCalls = 6 ∧
    (Auth.reAuthenticate (fun _ => none) true 0 0).delays =
      [1000, 2000, 4000, 8000, 16000] ∧
    (Auth.reAuthenticate (fun _ => none) true 0 0).result = .error () :=
  ⟨(auth_reauth_exactly_five_retries (fun _ => none) (fun _ => rfl)).2.1,
   (auth_reauth_exactly_five_retries (fun _ => none) (fun _ => rfl)).2.2.1,
   (auth_reauth_exactly_five_retries (fun _ => none) (fun _ => rfl)).1⟩

/-- C4: `makeAuthenticatedRequest` retries exactly once after a token
renewal when and only when the first attempt came back 401: a non-401
response is returned untouched with a single fetch issued, a network
error on the first attempt is rethrown untouched with a single fetch
issued, and after a 401 followed by a successful renewal the retried
response is returned as-is (exactly two fetches, no further retries —
even if the retried response is itself a 401). -/
theorem auth_request_single_401_retry (s t e newTok s2 t2 : Nat)
    (refreshOutcome : Except Nat Nat) (second : Nat → Auth.FetchOutcome)
    (hs : s ≠ 401) (hsecond : second newTok = .resp s2 t2) :
    Auth.makeAuthenticatedRequest (.resp s t) refreshOutcome second =
      { result := .ok (s, t), requests := 1 } ∧
    Auth.makeAuthenticatedRequest (.netErr e) refreshOutcome second =
      { result := .error e, requests := 1 } ∧
    Auth.makeAuthenticatedRequest (.resp 401 t) (.ok newTok) second =
      { result := .ok (s2, t2), requests := 2 } := by
  refine ⟨?_, rfl, ?_⟩
  · simp [Auth.makeAuthenticatedRequest, hs]
  · simp [Auth.makeAuthenticatedRequest, hsecond]

/-- C4 witness: a 500 response propagates untouched with one fetch; a
401 followed by a renewal to token 5 returns the retried 200 response
with exactly two fetches; a network error propagates with one fetch. -/
theorem auth_request_single_401_retry_witness :
    Auth.makeAuthenticatedRequest (.resp 500 1) (.ok 5) (fun _ => .resp 200 2) =
      { result := .ok (500, 1), requests := 1 } ∧
    Auth.makeAuthenticatedRequest (.netErr 9) (.ok 5) (fun _ => .resp 200 2) =
      { result := .error 9, requests := 1 } ∧
    Auth.makeAuthenticatedRequest (.resp 401 1) (.ok 5) (fun _ => .resp 200 2) =
      { result := .ok (200, 2), requests := 2 } :=
  auth_request_single_401_retry 500 1 9 5 200 2 (.ok 5) (fun _ => .resp 200 2)
    (by decide) rfl

/-- C5 counterexample: caller 0 starts a renewal (one fetch issued);
caller 1 arrives while it is in flight and is subscribed without a
second fetch; the refresh fetch comes back 401 and the renewal falls
back to re-authentication, which succeeds with token 42 — yet the
subscribed caller 1 is never resolved: the delivered-resolutions list
stays empty and caller 1 is still queued, contradicting the claim that
every concurrent caller is resolved with the new token on the
re-authentication path. -/
theorem auth_refresh_subscriber_never_resolved :
    (Auth.refreshEnter Auth.idleState 0).1.isRefreshing = true ∧
    (Auth.refreshEnter (Auth.refreshEnter Auth.idleState 0).1 1).2 = true ∧
    Auth.busyTwoCallers.refreshCalls = 1 ∧
    Auth.reauthFallback.2 = .ok (some 42) ∧
    ¬ ((1, 42) ∈ Auth.reauthFallback.1.resolved) ∧
    Auth.reauthFallback.1.subscribers = [1] :=
  ⟨rfl, rfl, rfl, rfl, by decide, rfl⟩

/-- C5 (amended): at most one renewal is ever outstanding — a
`refreshToken` call while one is in flight issues no additional fetch
and only subscribes the caller — and when the in-flight renewal's
refresh fetch itself succeeds, every subscriber is resolved with that
same new token and the queue is cleared; but when the renewal falls
back to re-authentication (401 or fetch failure), the caller that owns
the renewal gets the re-authenticated token while the queued
subscribers are not resolved at all (they stay queued). -/
theorem auth_refresh_single_flight (st : Auth.RState) (caller t : Nat)
    (reauth : Except Unit Nat) (hbusy : st.isRefreshing = true) :
    ((Auth.refreshEnter st caller).1.refreshCalls = st.refreshCalls ∧
      (Auth.refreshEnter st caller).1.subscribers = st.subscribers ++ [caller] ∧
      (Auth.refreshEnter st caller).2 = true) ∧
    ((Auth.refreshComplete st (.ok t) true reauth).1.resolved =
        st.resolved ++ st.subscribers.map (fun c => (c, t)) ∧
      (Auth.refreshComplete st (.ok t) true reauth).1.subscribers = [] ∧
      (Auth.refreshComplete st (.ok t) true reauth).2 = .ok (some t) ∧
      (Auth.refreshComplete st (.ok t) true reauth).1.isRefreshing = false) ∧
    (reauth = .ok t →
      (Auth.refreshComplete st .unauthorized true reauth).1.resolved = st.resolved ∧
      (Auth.refreshComplete st .unauthorized true reauth).1.subscribers = st.subscribers ∧
      (Auth.refreshComplete st .unauthorized true reauth).2 = .ok (some t) ∧
      (Auth.refreshComplete st .unauthorized true reauth).1.isRefreshing = false) := by
  refine ⟨⟨?_, ?_, ?_⟩, ⟨rfl, rfl, rfl, rfl⟩, fun hre => ?_⟩
  · simp [Auth.refreshEnter, hbusy]
  · simp [Auth.refreshEnter, hbusy]
  · simp [Auth.refreshEnter, hbusy]
  · subst hre
    exact ⟨rfl, rfl, rfl, rfl⟩

/-- C5 amended witness: a concrete busy state with one queued
subscriber. -/
theorem auth_refresh_single_flight_witness :
    (Auth.refreshEnter
      { Auth.idleState with isRefreshing := true, subscribers := [4], refreshCalls := 1 }
      7).1.refreshCalls = 1 ∧
    (Auth.refreshComplete
      { Auth.idleState with isRefreshing := true, subscribers := [4], refreshCalls := 1 }
      (.ok 42) true (.ok 42)).1.resolved = [(4, 42)] ∧
    (Auth.refreshComplete
      { Auth.idleState with isRefreshing := true, subscribers := [4], refreshCalls := 1 }
      .unauthorized true (.ok 42)).1.subscribers = [4] := by
  have h := auth_refresh_single_flight
    { Auth.idleState with isRefreshing := true, subscribers := [4], refreshCalls := 1 }
    7 42 (.ok 42) rfl
  refine ⟨h.1.1, ?_, (h.2.2 rfl).2.1⟩
  have h2 := h.2.1.1
  simpa [Auth.idleState] using h2

/-- C9 counterexample: teardown of a registered station with one entry
in the persisted operation queue leaves that entry in place —
`handleUnregister` never invokes `clearQueue`, so the claim that
teardown clears the operation-queue state fails. -/
theorem station_unregister_keeps_queue :
    ¬ ((Station.handleUnregister (some 1) true
        { heartbeatOn := true, pollingOn := true, apmRunning := true }
        { printerStationData := some (1, 2), printerStation := some 1,
          stationSessionToken := some 2, stationCredentials := some (3, 4),
          printerStationQueue := [5] }).2.printerStationQueue = []) := by
  decide

/-- C9 (amended): teardown of a registered station performs the
best-effort server unregister whose outcome is ignored (the result is
identical whether the `DELETE` succeeds or fails), stops the heartbeat,
the polling and the print engine, and clears the persisted station
identity, station session and credentials — but leaves the persisted
operation queue untouched. -/
theorem station_unregister_teardown (sid : Nat) (dOk : Bool)
    (c : Station.Components) (p : Station.Persist) :
    (Station.handleUnregister (some sid) dOk c p).2.printerStationData = none ∧
    (Station.handleUnregister (some sid) dOk c p).2.printerStation = none ∧
    (Station.handleUnregister (some sid) dOk c p).2.stationSessionToken = none ∧
    (Station.handleUnregister (some sid) dOk c p).2.stationCredentials = none ∧
    (Station.handleUnregister (some sid) dOk c p).1.heartbeatOn = false ∧
    (Station.handleUnregister (some sid) dOk c p).1.pollingOn = false ∧
    (Station.handleUnregister (some sid) dOk c p).1.apmRunning = false ∧
    (Station.handleUnregister (some sid) dOk c p).2.printerStationQueue =
      p.printerStationQueue ∧
    Station.handleUnregister (some sid) true c p =
      Station.handleUnregister (some sid) false c p := by
  refine ⟨rfl, rfl, rfl, rfl, rfl, rfl, rfl, rfl, rfl⟩

/-- `Map.get` after `Map.set` of the same key. -/
theorem mapGet_mapSet_self (m : List (Nat × Nat)) (k v : Nat) :
    OPrinter.mapGet (OPrinter.mapSet m k v) k = some v := by
  induction m with
  | nil => simp [OPrinter.mapSet, OPrinter.mapGet]
  | cons hd rest ih =>
    obtain ⟨k', v'⟩ := hd
    by_cases h : k' = k
    · simp [OPrinter.mapSet, OPrinter.mapGet, h]
    · simp [OPrinter.mapSet, OPrinter.mapGet, h, ih]

/-- Two `Map.set`s of the same key collapse to the last one. -/
theorem mapSet_mapSet_self (m : List (Nat × Nat)) (k v w : Nat) :
    OPrinter.mapSet (OPrinter.mapSet m k v) k w = OPrinter.mapSet m k w := by
  induction m with
  | nil => simp [OPrinter.mapSet]
  | cons hd rest ih =>
    obtain ⟨k', v'⟩ := hd
    by_cases h : k' = k
    · simp [OPrinter.mapSet, h]
    · simp [OPrinter.mapSet, h, ih]

/-- `Map.delete` of a key just `Map.set` into a map that did not hold it
restores the original map. -/
theorem mapDelete_mapSet_of_none (m : List (Nat × Nat)) (k v : Nat)
    (h : OPrinter.mapGet m k = none) :
    OPrinter.mapDelete (OPrinter.mapSet m k v) k = m := by
  induction m with
  | nil => simp [OPrinter.mapSet, OPrinter.mapDelete]
  | cons hd rest ih =>
    obtain ⟨k', v'⟩ := hd
    by_cases hk : k' = k
    · simp [OPrinter.mapGet, hk] at h
    · simp [OPrinter.mapGet, hk] at h
      simp [OPrinter.mapSet, OPrinter.mapDelete, hk, ih h]

/-- Dropping fewer elements than the length preserves the last element. -/
theorem getLast?_drop_of_lt (l : List α) (k : Nat) (h : k < l.length) :
    (l.drop k).getLast? = l.getLast? := by
  induction l generalizing k with
  | nil => simp at h
  | cons a rest ih =>
    match k with
    | 0 => rfl
    | j + 1 =>
      simp only [List.length_cons, Nat.add_lt_add_iff_right] at h
      rw [List.drop_succ_cons, ih j h]
      match rest, h with
      | b :: rest2, _ => rfl

/-- `saveFailedJob` always leaves the freshly pushed record as the last
element of the bounded log. -/
theorem saveFailedJob_getLast (s : List Storage.FailedRec) (jid : Nat)
    (e : String) (c : Nat) :
    (Storage.saveFailedJob s jid e c).getLast? =
      some { jobId := jid, error := e, retryCount := c } := by
  unfold Storage.saveFailedJob OPrinter.keepLast
  rw [getLast?_drop_of_lt]
  · rw [List.getLast?_append_of_ne_nil s (by simp)]
    rfl
  · simp only [List.length_append, List.length_cons, List.length_nil]
    omega

/-- C2: a job whose print step throws on every attempt is retried
exactly `maxRetries` = 3 times with exponential backoff 2s, 4s, 8s
(base 2s, doubling), each attempt re-downloading from the same job
payload (the same `file_id`, with no re-fetch of the job from the
queue); when the retries are exhausted the persisted failed-job log
ends with the permanent Failed-Job Record {jobId, error, retryCount 3},
the server has been told `printing` once per attempt and then `failed`
with the error message, and the job is not picked up again: its
in-memory retry entry is gone (`failedMap` is restored), a `failed` job
does not pass the pending filter of the next poll cycle, and
`processFailedJobs` refuses to retry a record with `retryCount` = 3. -/
theorem apm_printFile_retry_exhaustion (job : APM.Job) (err : String)
    (downloadOk : Nat → Bool) (failedMap : List (Nat × Nat))
    (saved : List Storage.FailedRec)
    (hdl : ∀ n, downloadOk n = false)
    (hnew : OPrinter.mapGet failedMap job.id = none) :
    (APM.printFile downloadOk err job failedMap saved).downloads =
      [job.fileId, job.fileId, job.fileId, job.fileId] ∧
    (APM.printFile downloadOk err job failedMap saved).delays =
      [2000, 4000, 8000] ∧
    (APM.printFile downloadOk err job failedMap saved).saved.getLast? =
      some { jobId := job.id, error := err, retryCount := 3 } ∧
    (APM.printFile downloadOk err job failedMap saved).statusUpdates =
      [{ jobId := job.id, status := .printing, error := none },
       { jobId := job.id, status := .printing, error := none },
       { jobId := job.id, status := .printing, error := none },
       { jobId := job.id, status := .printing, error := none },
       { jobId := job.id, status := .failed, error := some err }] ∧
    (APM.printFile downloadOk err job failedMap saved).failedMap = failedMap ∧
    APM.pendingOf [(job, .failed)] = [] ∧
    APM.wouldRetryFailed { jobId := job.id, error := err, retryCount := 3 } = false := by
  refine ⟨?_, ?_, ?_, ?_, ?_, ?_, ?_⟩ <;>
    simp [APM.printFile, APM.printFileGo, APM.maxRetries, APM.retryDelay,
      APM.pendingOf, APM.wouldRetryFailed, hdl, hnew,
      mapGet_mapSet_self, mapSet_mapSet_self, mapDelete_mapSet_of_none _ _ _ hnew,
      saveFailedJob_getLast]

/-- C2 witness: job 1 with file 2 and an always-failing download. -/
theorem apm_printFile_retry_exhaustion_witness :
    (APM.printFile (fun _ => false) "download failed" { id := 1, fileId := 2 } [] []).delays
      = [2000, 4000, 8000] ∧
    (APM.printFile (fun _ => false) "download failed" { id := 1, fileId := 2 } [] []).saved.getLast?
      = some { jobId := 1, error := "download failed", retryCount := 3 } ∧
    (APM.printFile (fun _ => false) "download failed" { id := 1, fileId := 2 } [] []).failedMap
      = [] := by
  have h := apm_printFile_retry_exhaustion { id := 1, fileId := 2 } "download failed"
    (fun _ => false) [] [] (fun _ => rfl) rfl
  exact ⟨h.2.1, h.2.2.1, h.2.2.2.2.1⟩

/-- C1: the at-most-one-print-in-flight claim fails on the code.  In the
double-print scenario (`c1Init`): job 1 is claimed through
`autoPrintNext` under the `isPrinting` flag, its download fails, and the
catch block arms `setTimeout(() => this.printFile(printJob), delay)`;
that timer fires at t = 3750 while job 2 — claimed by a later poll — is
mid-print with `isPrinting` set, so job 1's retry enters the print step
(marks itself `printing`) concurrently: two print executions are in
flight at once (`maxActive = 2`), and the retry-path entry ran while the
flag was set (`retryEntriesWhileFlag = [(3750, 1)]`), contradicting both
"at most one print execution is in flight at any time" and "no second
job enters the print step while it is set — including print attempts
re-entered through the engine's retry path". -/
theorem apm_two_prints_in_flight :
    (Loop.run Loop.c1DownloadOk "download failed" 30 Loop.c1Init).maxActive = 2 ∧
    (Loop.run Loop.c1DownloadOk "download failed" 30 Loop.c1Init).retryEntriesWhileFlag
      = [(3750, 1)] ∧
    ¬ ((Loop.run Loop.c1DownloadOk "download failed" 30 Loop.c1Init).maxActive ≤ 1) := by
  refine ⟨by decide, by decide, by decide⟩

/-- C9 witness: a registered station with stored identity, credentials
and one queued operation. -/
theorem station_unregister_teardown_witness :
    (Station.handleUnregister (some 1) true
      { heartbeatOn := true, pollingOn := true, apmRunning := true }
      { printerStationData := some (1, 2), printerStation := some 1,
        stationSessionToken := some 2, stationCredentials := some (3, 4),
        printerStationQueue := [5] }).2.stationCredentials = none ∧
    (Station.handleUnregister (some 1) true
      { heartbeatOn := true, pollingOn := true, apmRunning := true }
      { printerStationData := some (1, 2), printerStation := some 1,
        stationSessionToken := some 2, stationCredentials := some (3, 4),
        printerStationQueue := [5] }).2.printerStationQueue = [5] :=
  ⟨(station_unregister_teardown 1 true
      { heartbeatOn := true, pollingOn := true, apmRunning := true }
      { printerStationData := some (1, 2), printerStation := some 1,
        stationSessionToken := some 2, stationCredentials := some (3, 4),
        printerStationQueue := [5] }).2.2.2.1,
   (station_unregister_teardown 1 true
      { heartbeatOn := true, pollingOn := true, apmRunning := true }
      { printerStationData := some (1, 2), printerStation := some 1,
        stationSessionToken := some 2, stationCredentials := some (3, 4),
        printerStationQueue := [5] }).2.2.2.2.2.2.2.1⟩
